import Mathlib

/-
Verification of the hacktv ffmpeg A/V pipeline (src/ffmpeg.c): the bounded
packet queue, the single-slot double buffer, the video and audio post-process
worker arithmetic, and the pull-API EOF logic, embedded shallowly as pure
Lean functions over explicit state.
-/

set_option autoImplicit false

/-- Rational number pair, mirroring AVRational from the ffmpeg library
(numerator and denominator as machine integers, modelled as Int). -/
structure AVRational where
  num : Int
  den : Int
deriving DecidableEq

/-- Modelled from the spec: the opaque ffmpeg library collaborator
av_rescale with the default AV_ROUND_NEAR_INF rounding, as used by
av_rescale_q: rescale a by b/c, rounding to nearest with ties away from
zero; negative a is handled by rescaling -a and negating, exactly as the
library does.  b and c are positive in every use in this repository. -/
def av_rescale (a b c : Int) : Int :=
  if a < 0 then -(((-a) * b + c / 2) / c) else (a * b + c / 2) / c

/-- Modelled from the spec: the opaque ffmpeg library collaborator
av_rescale_q, which rescales a timestamp from rational time base bq to cq:
av_rescale(a, bq.num * cq.den, cq.num * bq.den). -/
def av_rescale_q (a : Int) (bq cq : AVRational) : Int :=
  av_rescale a (bq.num * cq.den) (cq.num * bq.den)

/-- Maximum length of the packet queue in bytes (src/ffmpeg.c line 64,
taken from ffplay.c): 15 * 1024 * 1024. -/
def MAX_QUEUE_SIZE : Int := 15 * 1024 * 1024

/-- A compressed unit as far as the packet queue observes it: the AVPacket
byte size field.  The payload itself is opaque to the queue and is
identified here by the whole record. -/
structure AVPacket where
  size : Int

/-- The _packet_queue_t state (src/ffmpeg.c lines 76-87): packet count,
byte bookkeeping, sticky eof and abort flags, and the linked list of
queued packets (first..last), modelled as a Lean list with the head at
first and appends at last. -/
structure PacketQueue where
  length : Int
  size : Int
  eof : Bool
  abort : Bool
  items : List AVPacket

/-- _packet_queue_init (src/ffmpeg.c lines 204-212): all counters and
flags zeroed, no queued packets. -/
def packet_queue_init : PacketQueue :=
  ⟨0, 0, false, false, []⟩

/-- Result of one _packet_queue_write call.  completed carries the C
return code (0 on success or eof, -2 on abort), the value left in the
shared av->input_stall flag, and the queue state; blocked models the
writer waiting on the capacity condition inside the while loop, where it
has already raised av->input_stall and enqueued nothing. -/
inductive WriteResult where
  | completed (code : Int) (input_stall : Bool) (q : PacketQueue)
  | blocked (input_stall : Bool) (q : PacketQueue)

/--
_packet_queue_write (src/ffmpeg.c lines 251-309).  A none packet is the
end-of-stream sentinel: it sets eof and touches nothing else (the stall
flag keeps its incoming value).  For a real packet: while abort is unset
and the byte size q.size + pkt.size + per-entry overhead ov (the C
sizeof(_packet_queue_item_t), a platform constant kept as a parameter)
would exceed MAX_QUEUE_SIZE, the writer sets av->input_stall and waits;
sequentially this is the blocked result.  Once past the wait the code
clears av->input_stall, then if abort was set it discards the packet and
returns -2 with the queue untouched; otherwise it appends the packet at
the tail and adds pkt.size + ov to the byte count.
-/
def packet_queue_write (ov : Int) (input_stall : Bool) (q : PacketQueue)
    (pkt : Option AVPacket) : WriteResult :=
  match pkt with
  | none => .completed 0 input_stall { q with eof := true }
  | some p =>
    if q.abort = false ∧ q.size + p.size + ov > MAX_QUEUE_SIZE then
      .blocked true q
    else if q.abort = true then
      .completed (-2) false q
    else
      .completed 0 false
        { q with
          items := q.items ++ [p]
          length := q.length + 1
          size := q.size + p.size + ov }

/-- Result of one _packet_queue_read call.  delivered carries the return
code 0 together with the packet handed out and the new queue state;
finished is a return without a packet (0 when the shared input_stall flag
was up, -2 on abort, -1 on eof); blocked models waiting on the empty
queue. -/
inductive ReadResult where
  | delivered (code : Int) (pkt : AVPacket) (q : PacketQueue)
  | finished (code : Int) (q : PacketQueue)
  | blocked (q : PacketQueue)

/--
_packet_queue_read (src/ffmpeg.c lines 311-347).  While the queue is
empty: if av->input_stall is up the call returns 0 immediately without
filling the out packet; else abort returns -2 and eof returns -1 (abort
checked first, as in the C conditional); otherwise the reader waits
(blocked).  With packets queued it pops the first packet and subtracts
its byte size plus the per-entry overhead ov.  The branch where length is
nonzero but the list is empty is unreachable from any state this file
constructs (length always equals the list length there); the C code would
dereference a null pointer, and the model parks it on blocked.
-/
def packet_queue_read (ov : Int) (input_stall : Bool) (q : PacketQueue) :
    ReadResult :=
  if q.length = 0 then
    if input_stall then .finished 0 q
    else if q.abort = true then .finished (-2) q
    else if q.eof = true then .finished (-1) q
    else .blocked q
  else
    match q.items with
    | [] => .blocked q
    | p :: rest =>
      .delivered 0 p
        { q with
          items := rest
          length := q.length - 1
          size := q.size - p.size - ov }

/--
The while loop of _packet_queue_flush (src/ffmpeg.c lines 220-228):
while(q->length--) pops the first item.  The C post-decrement tests the
counter and then decrements it, so the loop body runs once per nonzero
test and the counter is decremented once more on the final, failing test:
a loop that starts with length n >= 0 pops n items and leaves length at
-1.  Popping past the end of the list (possible only when length and list
disagree, never from states built here) would dereference null in C; the
model stops there.
-/
def packet_queue_flush_loop (len : Int) (items : List AVPacket) :
    Int × List AVPacket :=
  if len = 0 then
    (len - 1, items)
  else
    match items with
    | [] => (len - 1, [])
    | _ :: rest => packet_queue_flush_loop (len - 1) rest

/-- _packet_queue_flush (src/ffmpeg.c lines 214-234): runs the pop loop;
the byte size field and the flags are left untouched by the C code. -/
def packet_queue_flush (q : PacketQueue) : PacketQueue :=
  let r := packet_queue_flush_loop q.length q.items
  { q with length := r.1, items := r.2 }

/-- Writing a list of packets in order with _packet_queue_write, from a
given queue state: some final state when every write returns success code
0, none if any write blocks on capacity or is rejected by abort.  The
stall flag fed to each write is irrelevant to its outcome and is passed
as false. -/
def packet_queue_write_all (ov : Int) (q : PacketQueue) :
    List AVPacket → Option PacketQueue
  | [] => some q
  | p :: ps =>
    match packet_queue_write ov false q (some p) with
    | .completed code _ q1 =>
      if code = 0 then packet_queue_write_all ov q1 ps else none
    | .blocked _ _ => none

/-- n successive _packet_queue_read calls, collecting the packets
delivered in order; a read that returns without a packet or blocks stops
the sequence. -/
def packet_queue_read_seq (ov : Int) (input_stall : Bool)
    (q : PacketQueue) : Nat → List AVPacket × PacketQueue
  | 0 => ([], q)
  | n + 1 =>
    match packet_queue_read ov input_stall q with
    | .delivered _ p q1 =>
      let r := packet_queue_read_seq ov input_stall q1 n
      (p :: r.1, r.2)
    | .finished _ q1 => ([], q1)
    | .blocked q1 => ([], q1)

/-- The av_ffmpeg_t fields shared by the two packet queues (src/ffmpeg.c
lines 122, 135, 159): the video queue, the audio queue, and the single
input_stall flag both share. -/
structure AvQueues where
  video_queue : PacketQueue
  audio_queue : PacketQueue
  input_stall : Bool

/-- Result of a write seen at the av_ffmpeg_t level. -/
inductive AvWriteResult where
  | completed (code : Int) (av : AvQueues)
  | blocked (av : AvQueues)

/-- _packet_queue_write applied through the av_ffmpeg_t state: the write
targets the video or the audio queue, and whatever it assigns to the
stall flag lands in the one shared av->input_stall field. -/
def av_packet_queue_write (ov : Int) (av : AvQueues) (toVideo : Bool)
    (pkt : Option AVPacket) : AvWriteResult :=
  match packet_queue_write ov av.input_stall
      (if toVideo then av.video_queue else av.audio_queue) pkt with
  | .completed code stall q1 =>
    .completed code
      (if toVideo then ⟨q1, av.audio_queue, stall⟩
       else ⟨av.video_queue, q1, stall⟩)
  | .blocked stall q1 =>
    .blocked
      (if toVideo then ⟨q1, av.audio_queue, stall⟩
       else ⟨av.video_queue, q1, stall⟩)

/-- Result of a read seen at the av_ffmpeg_t level. -/
inductive AvReadResult where
  | delivered (code : Int) (pkt : AVPacket) (av : AvQueues)
  | finished (code : Int) (av : AvQueues)
  | blocked (av : AvQueues)

/-- _packet_queue_read applied through the av_ffmpeg_t state: the read
targets the video or the audio queue but consults the single shared
av->input_stall flag, whichever queue raised it. -/
def av_packet_queue_read (ov : Int) (av : AvQueues) (fromVideo : Bool) :
    AvReadResult :=
  match packet_queue_read ov av.input_stall
      (if fromVideo then av.video_queue else av.audio_queue) with
  | .delivered code p q1 =>
    .delivered code p
      (if fromVideo then ⟨q1, av.audio_queue, av.input_stall⟩
       else ⟨av.video_queue, q1, av.input_stall⟩)
  | .finished code q1 =>
    .finished code
      (if fromVideo then ⟨q1, av.audio_queue, av.input_stall⟩
       else ⟨av.video_queue, q1, av.input_stall⟩)
  | .blocked _ => .blocked av

/--
One iteration of the _video_scaler_thread loop body (src/ffmpeg.c lines
681-785) restricted to its drift-correction and publish behaviour.  The
incoming decoded frame is represented by its best_effort_timestamp, with
none standing for AV_NOPTS_VALUE.  The result is the new video_start_time
together with the ordered list of publishes made to the outbound double
buffer during this iteration: true is a repeat publish
(_frame_dbuffer_ready(&av->out_video_buffer, 1)), false is a normal
publish after scaling (_frame_dbuffer_ready(&av->out_video_buffer, 0)).
A stale frame (rescaled pts negative) is skipped: no publish, start time
unchanged.  The while-loop that repeats the previous frame while the
rescaled pts is positive becomes List.replicate over that count, and each
repeat publish increments video_start_time; the final normal publish
increments it once more.
-/
def video_scaler_step (srcTb outTb : AVRational) (video_start_time : Int)
    (best_effort_timestamp : Option Int) : Int × List Bool :=
  match best_effort_timestamp with
  | none => (video_start_time + 1, [false])
  | some t =>
    let pts := av_rescale_q t srcTb outTb - video_start_time
    if pts < 0 then
      (video_start_time, [])
    else
      (video_start_time + pts + 1, List.replicate pts.toNat true ++ [false])

/-- The _video_scaler_thread loop run over a whole list of decoded frames,
threading video_start_time through video_scaler_step and concatenating the
outbound publishes in order. -/
def video_scaler_run (srcTb outTb : AVRational) (video_start_time : Int) :
    List (Option Int) → Int × List Bool
  | [] => (video_start_time, [])
  | f :: fs =>
    let r := video_scaler_step srcTb outTb video_start_time f
    let rest := video_scaler_run srcTb outTb r.1 fs
    (rest.1, r.2 ++ rest.2)

/-- Drift-correction outcome of one iteration of the _audio_scaler_thread
loop, before the frame is fed to the resampler: whether the unit was
discarded as entirely stale, how many leading samples are dropped
(trimmed), how many samples of silence were injected into the resampler,
and the audio_start_time left by the correction phase. -/
structure AudioStepResult where
  skipped : Bool
  drop : Int
  silence : Int
  audio_start_time : Int

/--
The drift-correction head of the _audio_scaler_thread loop body
(src/ffmpeg.c lines 995-1027).  The decoded unit is represented by its
best_effort_timestamp (none for AV_NOPTS_VALUE) and its nb_samples.  With
a real timestamp: rescale to the output sample time base, subtract
audio_start_time giving the signed sample offset, and let next_pts be
that offset plus nb_samples.  next_pts <= 0 discards the unit; offset
below -allowed_error trims -offset leading samples (drop, realised by
_audio_offset before swr_convert); offset above allowed_error injects
offset samples of silence via swr_inject_silence and advances
audio_start_time by offset; otherwise the unit passes through unchanged.
-/
def audio_scaler_step (srcTb outTb : AVRational) (allowed_error : Int)
    (audio_start_time : Int) (best_effort_timestamp : Option Int)
    (nb_samples : Int) : AudioStepResult :=
  match best_effort_timestamp with
  | none => ⟨false, 0, 0, audio_start_time⟩
  | some t =>
    let pts := av_rescale_q t srcTb outTb - audio_start_time
    let next_pts := pts + nb_samples
    if next_pts ≤ 0 then ⟨true, 0, 0, audio_start_time⟩
    else if pts < -allowed_error then ⟨false, -pts, 0, audio_start_time⟩
    else if pts > allowed_error then
      ⟨false, 0, pts, audio_start_time + pts⟩
    else ⟨false, 0, 0, audio_start_time⟩

/-- The _frame_dbuffer_t state (src/ffmpeg.c lines 89-102): the ready,
repeat and abort flags and the two frame slots frame[0] (front, read by
the consumer) and frame[1] (back, written by the producer), with slot
contents drawn from an arbitrary type. -/
structure FrameDbuffer (α : Type) where
  ready : Bool
  «repeat» : Bool
  abort : Bool
  frame0 : α
  frame1 : α

/-- _frame_dbuffer_ready (src/ffmpeg.c lines 408-423): the producer waits
while ready is still set and abort is unset (none models that blocked
wait); once through it sets ready and stores the repeat flag. -/
def frame_dbuffer_ready {α : Type} (d : FrameDbuffer α) (rpt : Bool) :
    Option (FrameDbuffer α) :=
  if d.ready = true ∧ d.abort = false then none
  else some { d with ready := true, «repeat» := rpt }

/-- Result of _frame_dbuffer_flip: still waiting, terminated by abort
(the C function returns NULL), or a frame handed to the consumer together
with the buffer state left behind. -/
inductive FlipResult (α : Type) where
  | blocked
  | aborted
  | frame (a : α) (d : FrameDbuffer α)

/-- _frame_dbuffer_flip (src/ffmpeg.c lines 425-460): the consumer waits
while neither ready nor abort is set; abort wins and returns NULL;
otherwise the two slots are swapped exactly when repeat is unset, ready
is cleared, and the (possibly new) front slot frame[0] is returned. -/
def frame_dbuffer_flip {α : Type} (d : FrameDbuffer α) : FlipResult α :=
  if d.ready = false ∧ d.abort = false then .blocked
  else if d.abort = true then .aborted
  else
    let d1 := if d.«repeat» = false
      then { d with frame0 := d.frame1, frame1 := d.frame0 }
      else d
    .frame d1.frame0 { d1 with ready := false }

/-- The av_ffmpeg_t fields consulted by _av_ffmpeg_eof: whether a video
and an audio stream were opened (the stream pointers being non-null) and
the two sticky per-stream EOF flags. -/
structure AvEofState where
  video_stream : Bool
  audio_stream : Bool
  video_eof : Bool
  audio_eof : Bool

/-- _av_ffmpeg_eof (src/ffmpeg.c lines 1100-1111): returns 0 while some
opened stream has not reached EOF, 1 otherwise. -/
def av_ffmpeg_eof (av : AvEofState) : Bool :=
  if (av.video_stream && !av.video_eof) || (av.audio_stream && !av.audio_eof)
  then false else true

/-- The only mutation _av_ffmpeg_read_video performs on the EOF state
(src/ffmpeg.c lines 871-876): when the outbound take returned NULL (EOF
or abort) it sets the sticky video_eof flag; nothing ever clears it. -/
def av_ffmpeg_read_video_mark (av : AvEofState) (frame_is_null : Bool) :
    AvEofState :=
  if frame_is_null then { av with video_eof := true } else av

/-- The only mutation _av_ffmpeg_read_audio performs on the EOF state
(src/ffmpeg.c lines 1087-1093): a NULL take sets the sticky audio_eof
flag; nothing ever clears it. -/
def av_ffmpeg_read_audio_mark (av : AvEofState) (frame_is_null : Bool) :
    AvEofState :=
  if frame_is_null then { av with audio_eof := true } else av

/-- INT_MAX, the clamp passed to av_reduce in _video_scaler_thread. -/
def INT_MAX : Int := 2147483647

/-- Modelled from the spec: the continued-fraction tail of the opaque
ffmpeg library collaborator av_reduce, entered only when the reduced
fraction still exceeds mx; it computes the best rational approximation
with numerator and denominator bounded by mx.  No input arising in this
file reaches it (their reduced forms fit INT_MAX), but it is kept so
av_reduce is total over the same domain as the library function. -/
def av_reduce_loop (mx a0n a0d a1n a1d : Int) (num den : Nat) :
    Int × Int :=
  if hden : den = 0 then (a1n, a1d)
  else
    let x : Nat := num / den
    let next_den : Nat := num % den
    let a2n : Int := (x : Int) * a1n + a0n
    let a2d : Int := (x : Int) * a1d + a0d
    if a2n > mx ∨ a2d > mx then
      let x1 : Int := if a1n ≠ 0 then (mx - a0n) / a1n else (x : Int)
      let x2 : Int := if a1d ≠ 0 then min x1 ((mx - a0d) / a1d) else x1
      if (den : Int) * (2 * x2 * a1d + a0d) > (num : Int) * a1d
      then (x2 * a1n + a0n, x2 * a1d + a0d)
      else (a1n, a1d)
    else av_reduce_loop mx a1n a1d a2n a2d den next_den
termination_by den
decreasing_by
  exact Nat.mod_lt _ (Nat.pos_of_ne_zero hden)

/-- Modelled from the spec: the opaque ffmpeg library collaborator
av_reduce(dst_num, dst_den, num, den, mx), which reduces num/den to
lowest terms with the sign carried on the numerator, approximating only
when the reduced terms exceed mx. -/
def av_reduce (num den mx : Int) : AVRational :=
  let sign : Bool := (decide (num < 0)) != (decide (den < 0))
  let g : Nat := Nat.gcd num.natAbs den.natAbs
  let n1 : Nat := if g ≠ 0 then num.natAbs / g else num.natAbs
  let d1 : Nat := if g ≠ 0 then den.natAbs / g else den.natAbs
  let a1 : Int × Int :=
    if (n1 : Int) ≤ mx ∧ (d1 : Int) ≤ mx then ((n1 : Int), (d1 : Int))
    else av_reduce_loop mx 0 1 1 0 n1 d1
  ⟨if sign then -a1.1 else a1.1, a1.2⟩

/-- The sample-aspect-ratio fallback in _video_scaler_thread
(src/ffmpeg.c lines 718-724): the incoming frame ratio is replaced by
1:1 exactly when its numerator or denominator is zero. -/
def video_scaler_sar_fallback (ratio : AVRational) : AVRational :=
  if ratio.num = 0 ∨ ratio.den = 0 then ⟨1, 1⟩ else ratio

/-- The output-frame sample aspect ratio computed by _video_scaler_thread
(src/ffmpeg.c lines 718-733): after the fallback, av_reduce is applied to
frame->width * ratio.num * oframe->height over
frame->height * ratio.den * oframe->width, clamped at INT_MAX. -/
def video_scaler_oframe_sar (frameW frameH oframeW oframeH : Int)
    (sample_aspect_ratio : AVRational) : AVRational :=
  let ratio := video_scaler_sar_fallback sample_aspect_ratio
  av_reduce (frameW * ratio.num * oframeH) (frameH * ratio.den * oframeW)
    INT_MAX

/-- C1: with source and output time bases both 1:1 and video_start_time
initially 0, the video post-process worker publishes exactly three
outbound frames, all repeat=false, for decoded timestamps [0,1,2]; for
decoded timestamps [0,2] it publishes three outbound frames in the order
normal, repeat, normal; video_start_time ends at 3 in both cases. -/
theorem c1_video_drift :
    video_scaler_run ⟨1, 1⟩ ⟨1, 1⟩ 0 [some 0, some 1, some 2]
      = (3, [false, false, false]) ∧
    video_scaler_run ⟨1, 1⟩ ⟨1, 1⟩ 0 [some 0, some 2]
      = (3, [false, true, false]) :=
  ⟨rfl, rfl⟩

/-- C10: a decoded unit whose timestamp is the AV_NOPTS_VALUE sentinel
(modelled as none) bypasses drift correction entirely: for every pair of
time bases and every clock state it is never discarded as stale, generates
no repeat publishes, is published exactly once with repeat=false, and
increments video_start_time by exactly 1. -/
theorem c10_video_nopts (srcTb outTb : AVRational) (video_start_time : Int) :
    video_scaler_step srcTb outTb video_start_time none
      = (video_start_time + 1, [false]) := by
  rfl

/-- Witness for c10_video_nopts at a concrete clock state and time bases. -/
theorem c10_video_nopts_witness :
    video_scaler_step ⟨1, 1⟩ ⟨1001, 30000⟩ 7 none = (8, [false]) :=
  c10_video_nopts ⟨1, 1⟩ ⟨1001, 30000⟩ 7

/-- C2 counterexample: with tolerance 10 and 1:1 time bases, a decoded
unit whose rescaled sample offset is -3 (start time 0, 100 samples) is
within the tolerance window, so _audio_scaler_thread trims nothing: drop
is 0, not the 3 the claim asserts. -/
theorem c2_counterexample :
    audio_scaler_step ⟨1, 1⟩ ⟨1, 1⟩ 10 0 (some (-3)) 100 = ⟨false, 0, 0, 0⟩ ∧
    (audio_scaler_step ⟨1, 1⟩ ⟨1, 1⟩ 10 0 (some (-3)) 100).drop ≠ 3 :=
  ⟨rfl, by decide⟩

/-- C2 (amended): in the audio post-process worker with tolerance 10 and
1:1 time bases, a decoded unit whose rescaled sample offset is -3 (with
offset plus sample count positive) is within tolerance and is passed to
the resampler unchanged: no samples are trimmed, no silence is injected,
and audio_start_time is not adjusted; a unit whose rescaled offset is +15
causes 15 samples of silence to be injected into the resampler and
audio_start_time to be advanced by 15 before the unit is consumed. -/
theorem c2_audio_drift (st1 t1 nb1 st2 t2 nb2 : Int)
    (h1 : av_rescale_q t1 ⟨1, 1⟩ ⟨1, 1⟩ - st1 = -3) (h1n : nb1 > 3)
    (h2 : av_rescale_q t2 ⟨1, 1⟩ ⟨1, 1⟩ - st2 = 15) (h2n : nb2 ≥ 0) :
    audio_scaler_step ⟨1, 1⟩ ⟨1, 1⟩ 10 st1 (some t1) nb1
      = ⟨false, 0, 0, st1⟩ ∧
    audio_scaler_step ⟨1, 1⟩ ⟨1, 1⟩ 10 st2 (some t2) nb2
      = ⟨false, 0, 15, st2 + 15⟩ := by
  constructor
  · have hn : ¬ ((-3 : Int) + nb1 ≤ 0) := by omega
    simp [audio_scaler_step, h1, hn]
  · have hn : ¬ ((15 : Int) + nb2 ≤ 0) := by omega
    simp [audio_scaler_step, h2, hn]

/-- Witness for c2_audio_drift: start time 0, timestamps -3 and +15. -/
theorem c2_audio_drift_witness :
    audio_scaler_step ⟨1, 1⟩ ⟨1, 1⟩ 10 0 (some (-3)) 100
      = ⟨false, 0, 0, 0⟩ ∧
    audio_scaler_step ⟨1, 1⟩ ⟨1, 1⟩ 10 0 (some 15) 5
      = ⟨false, 0, 15, 15⟩ :=
  c2_audio_drift 0 (-3) 100 0 15 5 (by decide) (by decide) (by decide)
    (by decide)

/-- Helper for C3: a run of successful writes appends the packets, in
order, at the tail of the queue list and counts them in length. -/
theorem packet_queue_write_all_spec (ov : Int) :
    ∀ (ps : List AVPacket) (q q' : PacketQueue),
      packet_queue_write_all ov q ps = some q' →
      q'.items = q.items ++ ps ∧ q'.length = q.length + ps.length := by
  intro ps
  induction ps with
  | nil =>
    intro q q' h
    simp only [packet_queue_write_all, Option.some.injEq] at h
    subst h
    simp
  | cons p ps ih =>
    intro q q' h
    simp only [packet_queue_write_all, packet_queue_write] at h
    by_cases hc : q.abort = false ∧ q.size + p.size + ov > MAX_QUEUE_SIZE
    · rw [if_pos hc] at h
      simp at h
    · rw [if_neg hc] at h
      by_cases ha : q.abort = true
      · rw [if_pos ha] at h
        simp at h
      · rw [if_neg ha] at h
        simp only [if_pos rfl] at h
        obtain ⟨h1, h2⟩ := ih _ q' h
        refine ⟨?_, ?_⟩
        · simpa using h1
        · simp only [List.length_cons] at h2 ⊢
          push_cast at h2 ⊢
          omega

/-- Helper for C3: reading as many times as there are queued packets
hands back exactly the queued list, head first, provided the length
field agrees with the list (as it does for every queue built by
writes). -/
theorem packet_queue_read_seq_spec (ov : Int) (input_stall : Bool) :
    ∀ (items : List AVPacket) (q : PacketQueue),
      q.items = items → q.length = items.length →
      (packet_queue_read_seq ov input_stall q items.length).1 = items := by
  intro items
  induction items with
  | nil =>
    intro q _ _
    rfl
  | cons p rest ih =>
    intro q h1 h2
    have hq : ¬ q.length = 0 := by
      rw [h2]
      simp only [List.length_cons]
      push_cast
      omega
    simp only [List.length_cons, packet_queue_read_seq, packet_queue_read,
      if_neg hq, h1]
    have h3 : q.length - 1 = (rest.length : Int) := by
      simp only [List.length_cons] at h2
      push_cast at h2
      omega
    have h4 := ih
      ⟨q.length - 1, q.size - p.size - ov, q.eof, q.abort, rest⟩ rfl h3
    simpa using h4

/-- C3: starting from an initialized queue, any sequence of writes that
all complete successfully (each under the capacity bound, abort never
set) followed by as many reads hands back exactly the written units, in
exactly the order written, each exactly once. -/
theorem c3_fifo (ov : Int) (input_stall : Bool) (ps : List AVPacket)
    (q' : PacketQueue)
    (h : packet_queue_write_all ov packet_queue_init ps = some q') :
    (packet_queue_read_seq ov input_stall q' ps.length).1 = ps := by
  obtain ⟨h1, h2⟩ := packet_queue_write_all_spec ov ps packet_queue_init q' h
  exact packet_queue_read_seq_spec ov input_stall ps q'
    (by simpa [packet_queue_init] using h1)
    (by simpa [packet_queue_init] using h2)

/-- Witness for c3_fifo: two packets of sizes 5 and 7 with overhead 24. -/
theorem c3_fifo_witness :
    (packet_queue_read_seq 24 false ⟨2, 60, false, false, [⟨5⟩, ⟨7⟩]⟩ 2).1
      = [⟨5⟩, ⟨7⟩] :=
  c3_fifo 24 false [⟨5⟩, ⟨7⟩] ⟨2, 60, false, false, [⟨5⟩, ⟨7⟩]⟩ rfl

/-- C4: a completed write of a non-null unit leaves the byte size within
MAX_QUEUE_SIZE, the only other completion being the abort path, which
returns the abort status -2 with the unit discarded and the queue
untouched; and whenever abort is set the write completes exactly that
way. -/
theorem c4_write_capacity (ov : Int) (input_stall : Bool)
    (q : PacketQueue) (p : AVPacket) (code : Int) (stall' : Bool)
    (q' : PacketQueue)
    (h : packet_queue_write ov input_stall q (some p)
      = .completed code stall' q') :
    (q'.size ≤ MAX_QUEUE_SIZE ∨ (code = -2 ∧ q' = q)) ∧
    (q.abort = true → code = -2 ∧ q' = q) := by
  simp only [packet_queue_write] at h
  by_cases hc : q.abort = false ∧ q.size + p.size + ov > MAX_QUEUE_SIZE
  · rw [if_pos hc] at h
    cases h
  · rw [if_neg hc] at h
    by_cases ha : q.abort = true
    · rw [if_pos ha] at h
      cases h
      exact ⟨Or.inr ⟨rfl, rfl⟩, fun _ => ⟨rfl, rfl⟩⟩
    · rw [if_neg ha] at h
      cases h
      have hab : q.abort = false := by
        cases hb : q.abort
        · rfl
        · exact absurd hb ha
      have hle : ¬ q.size + p.size + ov > MAX_QUEUE_SIZE :=
        fun hgt => hc ⟨hab, hgt⟩
      refine ⟨Or.inl ?_, fun hb => absurd hb ha⟩
      simpa using le_of_not_lt hle

/-- Witness for c4_write_capacity: a write against a queue whose abort
flag is set completes with status -2 and the queue untouched. -/
theorem c4_write_capacity_witness :
    ((⟨0, 0, false, true, []⟩ : PacketQueue).size ≤ MAX_QUEUE_SIZE ∨
      ((-2 : Int) = -2 ∧
        (⟨0, 0, false, true, []⟩ : PacketQueue) = ⟨0, 0, false, true, []⟩)) ∧
    ((⟨0, 0, false, true, []⟩ : PacketQueue).abort = true →
      (-2 : Int) = -2 ∧
        (⟨0, 0, false, true, []⟩ : PacketQueue) = ⟨0, 0, false, true, []⟩) :=
  c4_write_capacity 24 false ⟨0, 0, false, true, []⟩ ⟨5⟩ (-2) false
    ⟨0, 0, false, true, []⟩ rfl

/-- C5 (code bug): a queue reached by one successful 100-byte write
(overhead 24) holds length 1, size 124; _packet_queue_flush releases the
packet but its while(q->length--) loop post-decrements past zero and the
function never resets size, leaving length = -1 and size = 124 although
zero units remain — the claimed bookkeeping invariant fails in the state
flush leaves. -/
theorem c5_flush_bug :
    packet_queue_write 24 false packet_queue_init (some ⟨100⟩)
      = .completed 0 false ⟨1, 124, false, false, [⟨100⟩]⟩ ∧
    packet_queue_flush ⟨1, 124, false, false, [⟨100⟩]⟩
      = ⟨-1, 124, false, false, []⟩ :=
  ⟨rfl, rfl⟩

/-- C6 counterexample: a write to the audio queue that blocks on the
capacity bound raises the one shared av->input_stall flag; a read on the
empty video queue then consults that same shared flag — not a flag of the
video queue write side — and returns status 0, which is numerically
identical to the status a successful delivering read returns, refuting
the claimed distinctness from the success status and the claimed
per-queue flag. -/
theorem c6_counterexample :
    av_packet_queue_write 24
        ⟨packet_queue_init,
          ⟨1, MAX_QUEUE_SIZE, false, false, [⟨MAX_QUEUE_SIZE - 24⟩]⟩,
          false⟩
        false (some ⟨1⟩)
      = .blocked
          ⟨packet_queue_init,
            ⟨1, MAX_QUEUE_SIZE, false, false, [⟨MAX_QUEUE_SIZE - 24⟩]⟩,
            true⟩ ∧
    av_packet_queue_read 24
        ⟨packet_queue_init,
          ⟨1, MAX_QUEUE_SIZE, false, false, [⟨MAX_QUEUE_SIZE - 24⟩]⟩,
          true⟩
        true
      = .finished 0
          ⟨packet_queue_init,
            ⟨1, MAX_QUEUE_SIZE, false, false, [⟨MAX_QUEUE_SIZE - 24⟩]⟩,
            true⟩ ∧
    av_packet_queue_read 24
        ⟨⟨1, 29, false, false, [⟨5⟩]⟩, packet_queue_init, false⟩ true
      = .delivered 0 ⟨5⟩
          ⟨⟨0, 0, false, false, []⟩, packet_queue_init, false⟩ :=
  ⟨rfl, rfl, rfl⟩

/-- C6 (amended): whenever read finds its queue empty while the shared
input-side stall flag — a single av_ffmpeg_t field raised by a blocked
write to either queue, not a per-queue flag — is set, it returns status 0
immediately, without blocking and without removing or returning a unit;
that value is distinct from the eof (-1) and abort (-2) terminal statuses
but is numerically the same as the success status. -/
theorem c6_stall_read (ov : Int) (av : AvQueues) (fromVideo : Bool)
    (hempty : (if fromVideo then av.video_queue else av.audio_queue).length
      = 0)
    (hstall : av.input_stall = true) :
    av_packet_queue_read ov av fromVideo = .finished 0 av ∧
    (0 : Int) ≠ -1 ∧ (0 : Int) ≠ -2 := by
  refine ⟨?_, by decide, by decide⟩
  have h1 : packet_queue_read ov av.input_stall
      (if fromVideo then av.video_queue else av.audio_queue)
      = .finished 0 (if fromVideo then av.video_queue else av.audio_queue) := by
    rw [packet_queue_read, if_pos hempty, hstall]
    rfl
  rw [av_packet_queue_read, h1]
  cases fromVideo <;> simp

/-- Witness for c6_stall_read: empty video queue, stall flag up. -/
theorem c6_stall_read_witness :
    av_packet_queue_read 24
        ⟨packet_queue_init, ⟨1, 100, false, false, [⟨76⟩]⟩, true⟩ true
      = .finished 0
          ⟨packet_queue_init, ⟨1, 100, false, false, [⟨76⟩]⟩, true⟩ ∧
    (0 : Int) ≠ -1 ∧ (0 : Int) ≠ -2 :=
  c6_stall_read 24 ⟨packet_queue_init, ⟨1, 100, false, false, [⟨76⟩]⟩, true⟩
    true rfl rfl

/-- C7: whenever a take (_frame_dbuffer_flip) hands out a frame, a
following publish with repeat=true does not block, and the next take
returns the very same front-slot content with the two slots unswapped;
and in general a take performed while repeat is set leaves front and back
exactly where they were — a swap happens only when repeat is false at
hand-off time. -/
theorem c7_repeat_no_swap (α : Type) :
    (∀ (d d1 : FrameDbuffer α) (x : α),
        frame_dbuffer_flip d = .frame x d1 →
        frame_dbuffer_ready d1 true
            = some { d1 with ready := true, «repeat» := true } ∧
        frame_dbuffer_flip { d1 with ready := true, «repeat» := true }
            = .frame x { d1 with ready := false, «repeat» := true } ∧
        x = d1.frame0) ∧
    (∀ (d d1 : FrameDbuffer α) (x : α),
        frame_dbuffer_flip d = .frame x d1 → d.«repeat» = true →
        d1.frame0 = d.frame0 ∧ d1.frame1 = d.frame1) := by
  constructor
  · intro d d1 x h
    obtain ⟨dr, dp, da, f0, f1⟩ := d
    cases dr <;> cases da <;> cases dp <;>
      simp_all [frame_dbuffer_flip, frame_dbuffer_ready] <;>
      obtain ⟨rfl, rfl⟩ := h <;> simp
  · intro d d1 x h hp
    obtain ⟨dr, dp, da, f0, f1⟩ := d
    cases dr <;> cases da <;> cases dp <;>
      simp_all [frame_dbuffer_flip]
    obtain ⟨rfl, rfl⟩ := h
    simp

/-- Witness for c7_repeat_no_swap: a take from a ready non-repeat buffer
holding 1 in front and 2 in back swaps and returns 2; the repeat publish
after it re-arms the buffer without touching the slots. -/
theorem c7_repeat_no_swap_witness :
    frame_dbuffer_ready (⟨false, false, false, 2, 1⟩ : FrameDbuffer Nat)
        true
      = some ⟨true, true, false, 2, 1⟩ :=
  ((c7_repeat_no_swap Nat).1 ⟨true, false, false, 1, 2⟩
    ⟨false, false, false, 2, 1⟩ 2 rfl).1

/-- C8: _av_ffmpeg_eof returns true exactly when every opened stream has
its sticky EOF flag raised (a missing stream counts as satisfied), and
once true it stays true under the only flag mutations the pull API
performs, because they only ever set flags. -/
theorem c8_is_eof (av : AvEofState) :
    (av_ffmpeg_eof av = true ↔
      ((av.video_stream = true → av.video_eof = true) ∧
       (av.audio_stream = true → av.audio_eof = true))) ∧
    (∀ b : Bool, av_ffmpeg_eof av = true →
      av_ffmpeg_eof (av_ffmpeg_read_video_mark av b) = true ∧
      av_ffmpeg_eof (av_ffmpeg_read_audio_mark av b) = true) := by
  obtain ⟨v, a, ve, ae⟩ := av
  cases v <;> cases a <;> cases ve <;> cases ae <;> decide

/-- Witness for c8_is_eof: both streams open and both flags raised stay
at EOF under further reads. -/
theorem c8_is_eof_witness :
    av_ffmpeg_eof (av_ffmpeg_read_video_mark ⟨true, true, true, true⟩ true)
      = true ∧
    av_ffmpeg_eof (av_ffmpeg_read_audio_mark ⟨true, true, true, true⟩ true)
      = true :=
  (c8_is_eof ⟨true, true, true, true⟩).2 true rfl

/-- C9 counterexample: a sample aspect ratio with negative numerator is
non-positive yet not replaced by the 1:1 fallback — the fallback fires
only on a zero numerator or denominator — and the output aspect ratio
computed from it differs from the one the fallback would give. -/
theorem c9_counterexample :
    video_scaler_sar_fallback ⟨-1, 1⟩ = ⟨-1, 1⟩ ∧
    video_scaler_oframe_sar 1 1 1 1 ⟨-1, 1⟩ = ⟨-1, 1⟩ ∧
    video_scaler_oframe_sar 1 1 1 1 ⟨1, 1⟩ = ⟨1, 1⟩ ∧
    video_scaler_oframe_sar 1 1 1 1 ⟨-1, 1⟩
      ≠ video_scaler_oframe_sar 1 1 1 1 ⟨1, 1⟩ := by
  decide

/-- C9 (amended): in the video post-process step, for every incoming
frame whose sample aspect ratio has a zero numerator or a zero
denominator, the output pixel aspect ratio is computed from the
square-pixel fallback ratio 1:1 in place of the source ratio; negative
components are not treated as degenerate and are used as-is. -/
theorem c9_sar_fallback (frameW frameH oframeW oframeH : Int)
    (r : AVRational) (h : r.num = 0 ∨ r.den = 0) :
    video_scaler_oframe_sar frameW frameH oframeW oframeH r
      = video_scaler_oframe_sar frameW frameH oframeW oframeH ⟨1, 1⟩ := by
  rcases h with h | h <;>
    simp [video_scaler_oframe_sar, video_scaler_sar_fallback, h]

/-- Witness for c9_sar_fallback at a zero-numerator ratio. -/
theorem c9_sar_fallback_witness :
    video_scaler_oframe_sar 720 576 720 576 ⟨0, 7⟩
      = video_scaler_oframe_sar 720 576 720 576 ⟨1, 1⟩ :=
  c9_sar_fallback 720 576 720 576 ⟨0, 7⟩ (Or.inl rfl)
